import Mathlib

/-!
Verification development for the deimos-master game-server directory.

The repository contains several near-duplicate variants of the master
server.  The in-memory variant (the `AkadokMaster` file keeping
`self.servers = {}`) is embedded as `postHandler` / `removeIdleServers` /
`getHandler` below; the MySQL-backed variant (`app.js`) contributes the
cache layer (`retreiveList`, `getCacheAge`, `updateCache`) and its own
request validation (`postHandlerDeimos`).

JavaScript-specific behaviour is embedded explicitly:
- `parseInt` is modelled as `jsParseInt : String -> Option Int`, where
  `none` stands for `NaN`.  After `parseInt`, `typeof x` is always
  `'number'` (`NaN` included), so the `typeof x !== 'number'` half of the
  source guards can never fire; the effective guard is the comparison,
  and every comparison against `NaN` is false.
- `"".split(',')` evaluates to `[""]`, a one-element array; `splitOnComma`
  reproduces that.
- Timestamps are integers (`Math.round(Date.getTime()/1000)`).
-/

namespace DeimosMaster

/-- JSON values, used to model the bodies produced by `res.json` and
`JSON.stringify`.  A serialized payload is represented by its JSON value. -/
inductive Json where
  | str : String → Json
  | num : Int → Json
  | bool : Bool → Json
  | null : Json
  | arr : List Json → Json
  | obj : List (String × Json) → Json
deriving Repr

/-- Whether a JSON value is an array. -/
def Json.isArr : Json → Bool
  | Json.arr _ => true
  | _ => false

/-- The members of a JSON object (empty for non-objects). -/
def Json.objFields : Json → List (String × Json)
  | Json.obj fs => fs
  | _ => []

/-- The member names of a JSON object, in order. -/
def Json.jkeys (j : Json) : List String :=
  j.objFields.map Prod.fst

/-- Look up a member of a JSON object by name. -/
def Json.jfield (j : Json) (k : String) : Option Json :=
  (j.objFields.find? (fun p => decide (p.1 = k))).map Prod.snd

/-- ASCII whitespace recognised by `String.prototype.trim`. -/
def isJsSpace (c : Char) : Bool :=
  c = ' ' || c = '\t' || c = '\n' || c = '\r'

/-- JS `String.prototype.trim`: strip leading and trailing whitespace. -/
def jsTrim (s : String) : String :=
  ⟨((s.data.dropWhile isJsSpace).reverse.dropWhile isJsSpace).reverse⟩

/-- JS `String.prototype.split(',')` on the character list.  On the empty
string it yields `[[]]` (one empty group), exactly as in JavaScript. -/
def splitOnComma : List Char → List (List Char)
  | [] => [[]]
  | c :: rest =>
    let r := splitOnComma rest
    if c = ',' then [] :: r
    else
      match r with
      | [] => [[c]]
      | g :: gs => (c :: g) :: gs

/-- The `players` cleanup of the POST handler:
`server.players.split(',').map(function (p) { return p.trim(); })`. -/
def splitPlayers (s : String) : List String :=
  (splitOnComma s.data).map (fun cs => jsTrim ⟨cs⟩)

/-- JS `parseInt` (decimal): skip leading whitespace, read an optional
sign and a non-empty digit prefix; `none` models `NaN`. -/
def jsParseInt (s : String) : Option Int :=
  let cs := s.data.dropWhile isJsSpace
  let signAndRest : Int × List Char :=
    match cs with
    | '-' :: r => (-1, r)
    | '+' :: r => (1, r)
    | r => (1, r)
  let ds := signAndRest.2.takeWhile Char.isDigit
  if ds.isEmpty then none
  else some (signAndRest.1 * (Int.ofNat (ds.foldl (fun acc c => acc * 10 + (c.toNat - 48)) 0)))

/-- `parseInt(req.body.x)` where the field may be `undefined`
(`parseInt(undefined)` is `NaN`). -/
def jsParseIntField : Option String → Option Int
  | none => none
  | some s => jsParseInt s

/-- The JS comparison `x > 0` on a `parseInt` result: false for `NaN`. -/
def jsGtZero : Option Int → Bool
  | none => false
  | some n => decide (0 < n)

/-- A registered game server, as stored in `self.servers[serverKey]`
by the in-memory variant. -/
structure Server where
  ip : String
  port : Int
  name : String
  map : String
  players : List String
  maxplayers : Int
  lastRefresh : Int
deriving DecidableEq, Repr

/-- The fields of a `POST /` request body that the handler reads.
`port`, `players` and `maxplayers` may be absent (`undefined`); the
handler stores `name` and `map` verbatim and no claim concerns their
absence, so they are kept as plain strings. -/
structure Body where
  port : Option String
  name : String
  map : String
  players : Option String
  maxplayers : Option String
deriving DecidableEq, Repr

/-- Response of the `POST /` route: `200 {success:true}` or
`400 {error:'Bad request'}`. -/
inductive Response where
  | ok
  | badRequest
deriving DecidableEq, Repr

/-- HTTP status carried by `res.json(status, payload)`. -/
def Response.status : Response → Nat
  | Response.ok => 200
  | Response.badRequest => 400

/-- JSON payload carried by `res.json(status, payload)`. -/
def Response.payload : Response → Json
  | Response.ok => Json.obj [("success", Json.bool true)]
  | Response.badRequest => Json.obj [("error", Json.str "Bad request")]

/-- `var serverKey = server.ip + ':' + server.port;`. -/
def serverKey (ip : String) (port : Int) : String :=
  ip ++ ":" ++ toString port

/-- The `server` object built at the top of the POST handler, after the
players cleanup (fields parsed with `parseInt`, `lastRefresh` set to the
request timestamp). -/
def mkServer (now : Int) (reqIp : String) (body : Body) : Server :=
  { ip := reqIp
    port := (jsParseIntField body.port).getD 0
    name := body.name
    map := body.map
    players := splitPlayers (body.players.getD "")
    maxplayers := (jsParseIntField body.maxplayers).getD 0
    lastRefresh := now }

/-- `self.servers[serverKey] = server`: replace in place when the key is
present (`hasOwnProperty`), otherwise append (JS objects keep insertion
order for non-numeric keys). -/
def upsert (k : String) (v : Server) (servers : List (String × Server)) :
    List (String × Server) :=
  if servers.any (fun p => decide (p.1 = k)) then
    servers.map (fun p => if p.1 = k then (k, v) else p)
  else
    servers ++ [(k, v)]

/-- `self.servers[serverKey]` read access. -/
def lookupServer (k : String) (servers : List (String × Server)) : Option Server :=
  (servers.find? (fun p => decide (p.1 = k))).map Prod.snd

/-- The in-memory variant's `app.post('/')` handler: validate
(`!(port > 0)`, `typeof players === 'undefined'`, `!(maxplayers > 0)`),
then split/trim `players` and store the entry under `ip + ':' + port`.
The `typeof ... !== 'number'` half of the numeric guards never fires
because `parseInt` always yields a number (possibly `NaN`). -/
def postHandler (now : Int) (reqIp : String) (body : Body)
    (servers : List (String × Server)) : Response × List (String × Server) :=
  if !(jsGtZero (jsParseIntField body.port)) then
    (Response.badRequest, servers)
  else if body.players.isNone then
    (Response.badRequest, servers)
  else if !(jsGtZero (jsParseIntField body.maxplayers)) then
    (Response.badRequest, servers)
  else
    let server := mkServer now reqIp body
    (Response.ok, upsert (serverKey reqIp server.port) server servers)

/-- `removeIdleServers`: delete every entry with
`currentTimestamp - server.lastRefresh > config.max_idle_time`. -/
def removeIdleServers (now maxIdleTime : Int) (servers : List (String × Server)) :
    List (String × Server) :=
  servers.filter (fun p => !(decide (now - p.2.lastRefresh > maxIdleTime)))

/-- The in-memory variant's `app.get('/')` handler:
`res.json(200, self.servers)` — the servers object itself is serialized,
i.e. a JSON object keyed by `ip:port`. -/
def serverToJson (s : Server) : Json :=
  Json.obj
    [("ip", Json.str s.ip),
     ("port", Json.num s.port),
     ("name", Json.str s.name),
     ("map", Json.str s.map),
     ("players", Json.arr (s.players.map Json.str)),
     ("maxplayers", Json.num s.maxplayers),
     ("lastRefresh", Json.num s.lastRefresh)]

/-- `app.get('/')` of the in-memory variant: status 200 and the registry
serialized as a JSON object. -/
def getHandler (servers : List (String × Server)) : Nat × Json :=
  (200, Json.obj (servers.map (fun p => (p.1, serverToJson p.2))))

/-- Events that mutate the registry: a `POST /` request (with its
timestamp, caller address and body) or a sweeper tick. -/
inductive Event where
  | post (now : Int) (ip : String) (body : Body)
  | sweep (now : Int) (maxIdleTime : Int)
deriving DecidableEq, Repr

/-- One registry transition. -/
def step (servers : List (String × Server)) : Event → List (String × Server)
  | Event.post now ip body => (postHandler now ip body servers).2
  | Event.sweep now m => removeIdleServers now m servers

/-- Run a sequence of events from the empty registry
(`self.servers = {}`). -/
def run (evs : List Event) : List (String × Server) :=
  evs.foldl step []

/-- A server record as built by the MySQL-backed variant (`app.js`).
There `port` and `maxplayers` can be `NaN` (modelled as `none`), because
that variant's guards reject only `=== 0` and non-numbers, and `parseInt`
results are always numbers. -/
structure ServerD where
  ip : String
  port : Option Int
  name : String
  map : String
  players : List String
  maxplayers : Option Int
  lastRefresh : Int
deriving DecidableEq, Repr

/-- The `app.js` variant's `app.post('/')` handler up to the store
operation: `none` is the `400 Bad request` rejection (no query is issued,
the registry is untouched); `some server` means the request is accepted
with `200 {success:true}` and the record is upserted into
`online_servers` keyed by `(ip, port)`.  Guards, in source order:
`typeof port !== 'number' || port === 0` (the `typeof` half never fires
after `parseInt`), `players !== '' && typeof players === 'undefined'`,
and `typeof maxplayers !== 'number' || maxplayers === 0`. -/
def postHandlerDeimos (now : Int) (reqIp : String) (body : Body) : Option ServerD :=
  if jsParseIntField body.port = some 0 then none
  else if body.players ≠ some "" ∧ body.players.isNone then none
  else if jsParseIntField body.maxplayers = some 0 then none
  else
    some
      { ip := reqIp
        port := jsParseIntField body.port
        name := body.name
        map := body.map
        players := splitPlayers (body.players.getD "")
        maxplayers := jsParseIntField body.maxplayers
        lastRefresh := now }

/-- A write-once HTTP response: once a payload has been sent, a later
`res.json`/`res.send` cannot change what the client received (headers
already sent). -/
structure Res where
  committed : Option (Nat × Json)
deriving Repr

/-- Send a status and payload on a response; a no-op for the client if
the response is already committed. -/
def Res.send (r : Res) (status : Nat) (payload : Json) : Res :=
  match r.committed with
  | some _ => r
  | none => { committed := some (status, payload) }

/-- `getCacheAge`, memory backing:
`Math.floor(currentTimestamp - self.cacheAge)` (both are integers, so
the floor is the identity). -/
def getCacheAgeMemory (now cacheAge : Int) : Int :=
  now - cacheAge

/-- `getCacheAge`, file backing, on `Option` mtime (`none` = the cache
file does not exist): a missing file yields `config.caching.expiration`;
otherwise `Math.floor(currentTimestamp - mtime.getTime()/1000)`, which
for an integer `now` and millisecond mtime equals
`(1000*now - mtimeMs).fdiv 1000`. -/
def getCacheAgeFile (expiration now : Int) (mtimeMs : Option Int) : Int :=
  match mtimeMs with
  | none => expiration
  | some ms => (1000 * now - ms).fdiv 1000

/-- The staleness test of `retreiveList`:
`self.getCacheAge() > config.caching.expiration`. -/
def refreshTriggered (expiration age : Int) : Bool :=
  decide (expiration < age)

/-- The memory-backed cache snapshot: `self.cache` (the serialized
listing, modelled by its JSON value) and `self.cacheAge` (the timestamp
of the last `updateCache`). -/
structure CacheSnap where
  cache : Json
  cacheAge : Int
deriving Repr

/-- Outcome of the asynchronous `SELECT * FROM online_servers` issued by
a cache refresh. -/
inductive DbOutcome where
  | failure
  | success (rows : List Json)
deriving Repr

/-- `delete result[i].id` applied to one row. -/
def deleteId : Json → Json
  | Json.obj fields => Json.obj (fields.filter (fun p => !(decide (p.1 = "id"))))
  | j => j

/-- `updateCache(data)`, memory backing: store the serialized data and
stamp the snapshot with the current timestamp. -/
def updateCacheMemory (now : Int) (data : Json) : CacheSnap :=
  { cache := data, cacheAge := now }

/-- One full `GET /` request cycle through `retreiveList` (memory
backing), including the eventual completion of the refresh query.  The
handler issues the query (when the snapshot is stale) and then
synchronously sends `(200, cache)`; the query callback runs only after
the synchronous part has completed (Node event loop), so its
`res.json(500, ...)` on failure hits an already-committed response and
the reader still only sees the stale snapshot, which is left in place
(`updateCache` is not called).  Returns the `updatedCache` flag, the
response as the client sees it, and the snapshot afterwards. -/
def retreiveList (expiration now : Int) (st : CacheSnap) (db : DbOutcome) :
    Bool × Res × CacheSnap :=
  let updatedCache := refreshTriggered expiration (getCacheAgeMemory now st.cacheAge)
  let res := Res.send { committed := none } 200 st.cache
  if updatedCache then
    match db with
    | DbOutcome.failure =>
      (true, res.send 500 (Json.obj [("result", Json.str "error")]), st)
    | DbOutcome.success rows =>
      (true, res, updateCacheMemory now (Json.arr (rows.map deleteId)))
  else
    (false, res, st)

/-- The memory-backed cache snapshot instrumented with the number of
refresh queries issued and not yet completed.  The source keeps no such
flag; the counter only records how many `db.query` refresh calls are in
flight. -/
structure CacheSnapCount where
  cache : Json
  cacheAge : Int
  inFlight : Nat
deriving Repr

/-- The query-issuing prefix of `retreiveList`: the staleness test and,
when stale, the dispatch of the refresh query (counted in `inFlight`),
followed by the synchronous `(200, cache)` reply.  No in-flight guard
exists in the source: the test consults only the snapshot age. -/
def retreiveListIssue (expiration now : Int) (st : CacheSnapCount) :
    Bool × Res × CacheSnapCount :=
  let updatedCache := refreshTriggered expiration (getCacheAgeMemory now st.cacheAge)
  let res := Res.send { committed := none } 200 st.cache
  if updatedCache then
    (true, res, { st with inFlight := st.inFlight + 1 })
  else
    (false, res, st)

/-! ### Helper lemmas about the registry operations -/

/-- A `parseInt` result passing the `> 0` guard is a positive integer,
and `getD 0` recovers it. -/
theorem getD_pos_of_jsGtZero {o : Option Int} (h : jsGtZero o = true) :
    0 < o.getD 0 := by
  cases o with
  | none => simp [jsGtZero] at h
  | some n => simpa [jsGtZero] using h

/-- A `parseInt` result passing the `> 0` guard is `some` of its
`getD 0` value. -/
theorem some_getD_of_jsGtZero {o : Option Int} (h : jsGtZero o = true) :
    o = some (o.getD 0) := by
  cases o with
  | none => simp [jsGtZero] at h
  | some n => rfl

/-- In the replace branch of `upsert`, the key lookup finds the new
value. -/
theorem find?_replace_eq (k : String) (v : Server) :
    ∀ s : List (String × Server), s.any (fun p => decide (p.1 = k)) = true →
      (s.map (fun p => if p.1 = k then (k, v) else p)).find?
        (fun p => decide (p.1 = k)) = some (k, v)
  | [], h => by simp at h
  | a :: t, h => by
    by_cases ha : a.1 = k
    · simp [ha]
    · have ht : t.any (fun p => decide (p.1 = k)) = true := by
        simpa [ha] using h
      simpa [ha] using find?_replace_eq k v t ht

/-- If no element of the registry has key `k`, the key lookup fails. -/
theorem find?_eq_none_of_any_false (k : String)
    (s : List (String × Server)) (h : s.any (fun p => decide (p.1 = k)) = false) :
    s.find? (fun p => decide (p.1 = k)) = none := by
  rw [List.find?_eq_none]
  intro p hp
  exact List.any_eq_false.mp h p hp

/-- After `upsert k v`, looking up `k` yields `v`. -/
theorem lookupServer_upsert (k : String) (v : Server) (s : List (String × Server)) :
    lookupServer k (upsert k v s) = some v := by
  unfold lookupServer upsert
  by_cases h : s.any (fun p => decide (p.1 = k)) = true
  · rw [if_pos h, find?_replace_eq k v s h]
    rfl
  · have h' : s.any (fun p => decide (p.1 = k)) = false := Bool.eq_false_iff.mpr h
    have hcond : ¬ ((s.any fun p => decide (p.1 = k)) = true) := by simp [h']
    rw [if_neg hcond, List.find?_append, find?_eq_none_of_any_false k s h']
    simp

/-- `upsert` keeps the key sequence when the key is present and appends
it otherwise. -/
theorem keys_upsert (k : String) (v : Server) (s : List (String × Server)) :
    (upsert k v s).map Prod.fst =
      if s.any (fun p => decide (p.1 = k)) then s.map Prod.fst
      else s.map Prod.fst ++ [k] := by
  unfold upsert
  by_cases h : s.any (fun p => decide (p.1 = k)) = true
  · rw [if_pos h, if_pos h, List.map_map]
    apply List.map_congr_left
    intro p _
    by_cases hp : p.1 = k <;> simp [hp]
  · have h' : s.any (fun p => decide (p.1 = k)) = false := Bool.eq_false_iff.mpr h
    have hcond : ¬ ((s.any fun p => decide (p.1 = k)) = true) := by simp [h']
    rw [if_neg hcond, if_neg hcond]
    simp

/-- Every element of `upsert k v s` is the new pair or an old one. -/
theorem mem_upsert_cases (q : String × Server) (k : String) (v : Server)
    (s : List (String × Server)) (hq : q ∈ upsert k v s) :
    q = (k, v) ∨ q ∈ s := by
  unfold upsert at hq
  by_cases h : s.any (fun p => decide (p.1 = k)) = true
  · rw [if_pos h] at hq
    rcases List.mem_map.mp hq with ⟨p, hp, hfp⟩
    by_cases hpk : p.1 = k
    · left; rw [← hfp]; simp [hpk]
    · right; rw [← hfp]; simp only [if_neg hpk]; exact hp
  · rw [if_neg h] at hq
    rcases List.mem_append.mp hq with h' | h'
    · right; exact h'
    · left; simpa using h'

/-- The registry invariant: keys are pairwise distinct, every entry is
stored under the key derived from its own identity, and ports and
capacities are positive. -/
def RegInv (s : List (String × Server)) : Prop :=
  (s.map Prod.fst).Nodup ∧
    ∀ p ∈ s, p.1 = serverKey p.2.ip p.2.port ∧ 0 < p.2.port ∧ 0 < p.2.maxplayers

/-- `upsert` preserves the registry invariant when the new value is
well-formed and stored under its own key. -/
theorem regInv_upsert {s : List (String × Server)} {k : String} {v : Server}
    (hs : RegInv s) (hk : k = serverKey v.ip v.port)
    (hp : 0 < v.port) (hm : 0 < v.maxplayers) : RegInv (upsert k v s) := by
  obtain ⟨hnd, hmem⟩ := hs
  constructor
  · rw [keys_upsert]
    by_cases h : s.any (fun p => decide (p.1 = k)) = true
    · rw [if_pos h]; exact hnd
    · have h' : s.any (fun p => decide (p.1 = k)) = false := Bool.eq_false_iff.mpr h
      rw [if_neg (by simp [h'])]
      have hk_not : k ∉ s.map Prod.fst := by
        intro hkin
        rcases List.mem_map.mp hkin with ⟨p, hpmem, hpk⟩
        have hne := List.any_eq_false.mp h' p hpmem
        simp only [decide_eq_true_eq] at hne
        exact hne hpk
      simp [List.nodup_append, hnd, hk_not]
  · intro q hq
    rcases mem_upsert_cases q k v s hq with h | h
    · subst h; exact ⟨hk, hp, hm⟩
    · exact hmem q h

/-- The sweeper preserves the registry invariant. -/
theorem regInv_removeIdleServers {s : List (String × Server)} (now m : Int)
    (hs : RegInv s) : RegInv (removeIdleServers now m s) := by
  obtain ⟨hnd, hmem⟩ := hs
  refine ⟨?_, ?_⟩
  · exact ((List.filter_sublist s).map Prod.fst).nodup hnd
  · intro p hp
    exact hmem p (List.mem_of_mem_filter hp)

/-- The POST handler preserves the registry invariant. -/
theorem regInv_postHandler {s : List (String × Server)}
    (now : Int) (ip : String) (body : Body) (hs : RegInv s) :
    RegInv (postHandler now ip body s).2 := by
  unfold postHandler
  split_ifs with h1 h2 h3
  · exact hs
  · exact hs
  · exact hs
  · have hport : jsGtZero (jsParseIntField body.port) = true := by
      simpa using h1
    have hmax : jsGtZero (jsParseIntField body.maxplayers) = true := by
      simpa using h3
    exact regInv_upsert hs rfl (getD_pos_of_jsGtZero hport) (getD_pos_of_jsGtZero hmax)

/-- One event step preserves the registry invariant. -/
theorem regInv_step (s : List (String × Server)) (ev : Event) (hs : RegInv s) :
    RegInv (step s ev) := by
  cases ev with
  | post now ip body => exact regInv_postHandler now ip body hs
  | sweep now m => exact regInv_removeIdleServers now m hs

/-- Folding events preserves the registry invariant. -/
theorem regInv_foldl : ∀ (evs : List Event) (s : List (String × Server)),
    RegInv s → RegInv (evs.foldl step s)
  | [], _, h => h
  | ev :: evs, s, h => regInv_foldl evs (step s ev) (regInv_step s ev h)

/-- Every reachable registry state satisfies the invariant. -/
theorem regInv_run (evs : List Event) : RegInv (run evs) :=
  regInv_foldl evs [] ⟨List.nodup_nil, by intro p hp; simp at hp⟩

/-- Acceptance characterization of the POST handler: an `ok` response
means all three guards passed and the state is the upsert of the
constructed server under its key. -/
theorem postHandler_ok_eq {now : Int} {ip : String} {body : Body}
    {servers : List (String × Server)}
    (h : (postHandler now ip body servers).1 = Response.ok) :
    jsGtZero (jsParseIntField body.port) = true ∧
    body.players.isNone = false ∧
    jsGtZero (jsParseIntField body.maxplayers) = true ∧
    (postHandler now ip body servers).2 =
      upsert (serverKey ip ((jsParseIntField body.port).getD 0))
        (mkServer now ip body) servers := by
  unfold postHandler at h ⊢
  split_ifs at h ⊢ with h1 h2 h3
  exact ⟨by simpa using h1, Bool.eq_false_iff.mpr h2, by simpa using h3, rfl⟩

/-! ### Claims -/

/-- Claim C2: a sweep tick at time `now` keeps an entry if and only if
`now - lastSeen ≤ maxIdleTime`; equivalently it removes exactly the
entries with `now - lastSeen > maxIdleTime` (strictly greater), so an
identity idle for longer than the threshold is absent after the tick and
one whose idle time does not exceed the threshold remains present. -/
theorem c2_sweep_removes_iff_strictly_idle :
    ∀ (now maxIdleTime : Int) (servers : List (String × Server)) (p : String × Server),
      p ∈ removeIdleServers now maxIdleTime servers ↔
        p ∈ servers ∧ now - p.2.lastRefresh ≤ maxIdleTime := by
  intro now m servers p
  unfold removeIdleServers
  rw [List.mem_filter]
  constructor
  · rintro ⟨hmem, hcond⟩
    refine ⟨hmem, ?_⟩
    simpa [not_lt] using hcond
  · rintro ⟨hmem, hle⟩
    refine ⟨hmem, ?_⟩
    simpa [not_lt] using hle

/-- Witness for C2: at time 100 with threshold 20, an entry last seen at
70 (idle 30 > 20) is removed and one last seen at 85 (idle 15 ≤ 20) is
kept. -/
theorem c2_sweep_removes_iff_strictly_idle_witness :
    (("1.2.3.4:1",
        ({ ip := "1.2.3.4", port := 1, name := "a", map := "m", players := [],
             maxplayers := 2, lastRefresh := 70 } : Server)) ∈
      removeIdleServers 100 20
        [("1.2.3.4:1",
           ({ ip := "1.2.3.4", port := 1, name := "a", map := "m", players := [],
                maxplayers := 2, lastRefresh := 70 } : Server))] ↔
      (("1.2.3.4:1",
          ({ ip := "1.2.3.4", port := 1, name := "a", map := "m", players := [],
               maxplayers := 2, lastRefresh := 70 } : Server)) ∈
        [("1.2.3.4:1",
           ({ ip := "1.2.3.4", port := 1, name := "a", map := "m", players := [],
                maxplayers := 2, lastRefresh := 70 } : Server))] ∧
        (100 : Int) - 70 ≤ 20)) :=
  c2_sweep_removes_iff_strictly_idle 100 20
    [("1.2.3.4:1",
       ({ ip := "1.2.3.4", port := 1, name := "a", map := "m", players := [],
            maxplayers := 2, lastRefresh := 70 } : Server))]
    ("1.2.3.4:1",
      ({ ip := "1.2.3.4", port := 1, name := "a", map := "m", players := [],
           maxplayers := 2, lastRefresh := 70 } : Server))

/-- Claim C3 (failing evaluation): the read path has no in-flight guard,
so two stale reads of the listing before the first recompute completes
both issue a refresh query: the in-flight count reaches 2, not at most
1. -/
theorem c3_two_stale_reads_issue_two_refreshes :
    (retreiveListIssue 10 100
        { cache := Json.arr [], cacheAge := 0, inFlight := 0 }).2.2.inFlight = 1 ∧
    (retreiveListIssue 10 100
        (retreiveListIssue 10 100
          { cache := Json.arr [], cacheAge := 0, inFlight := 0 }).2.2).2.2.inFlight = 2 :=
  ⟨rfl, rfl⟩

/-- Claim C4: when a read finds the snapshot stale and the asynchronous
recompute fails, the reader still receives status 200 with the old
(stale) snapshot — the failure `res.json(500, ...)` happens after the
response is committed and never reaches the client — and the snapshot is
left unchanged. -/
theorem c4_refresh_failure_serves_stale :
    ∀ (expiration now : Int) (st : CacheSnap),
      refreshTriggered expiration (getCacheAgeMemory now st.cacheAge) = true →
      retreiveList expiration now st DbOutcome.failure =
        (true, { committed := some (200, st.cache) }, st) := by
  intro e n st h
  simp [retreiveList, h, Res.send]

/-- Witness for C4: snapshot aged 100 with TTL 10 is stale; a read with
a failing recompute yields `(200, old cache)` and the unchanged
snapshot. -/
theorem c4_refresh_failure_serves_stale_witness :
    refreshTriggered 10 (getCacheAgeMemory 100 (0 : Int)) = true ∧
    retreiveList 10 100 { cache := Json.arr [], cacheAge := 0 } DbOutcome.failure =
      (true, { committed := some (200, Json.arr []) }, { cache := Json.arr [], cacheAge := 0 }) :=
  ⟨rfl, c4_refresh_failure_serves_stale 10 100 { cache := Json.arr [], cacheAge := 0 } rfl⟩

/-- Claim C6: a `POST /` with `port="0"`, or with the `players` field
missing, or with `maxplayers="0"`, is rejected with a 400
`{error: "Bad request"}` response and mutates nothing, in both the
in-memory and the MySQL-backed variant. -/
theorem c6_validation_rejects_bad_requests :
    ∀ (now : Int) (ip : String) (body : Body) (servers : List (String × Server)),
      (body.port = some "0" ∨ body.players = none ∨ body.maxplayers = some "0") →
      postHandler now ip body servers = (Response.badRequest, servers) ∧
      postHandlerDeimos now ip body = none ∧
      Response.badRequest.status = 400 ∧
      Response.badRequest.payload = Json.obj [("error", Json.str "Bad request")] := by
  intro now ip body servers h
  refine ⟨?_, ?_, rfl, rfl⟩
  · unfold postHandler
    split_ifs with h1 h2 h3
    · rfl
    · rfl
    · rfl
    · exfalso
      rcases h with hp | hpl | hm
      · have hgt : jsGtZero (jsParseIntField body.port) = true := by simpa using h1
        rw [hp] at hgt
        exact absurd hgt (by decide)
      · have hnn : body.players.isNone = false := Bool.eq_false_iff.mpr h2
        rw [hpl] at hnn
        simp at hnn
      · have hgt : jsGtZero (jsParseIntField body.maxplayers) = true := by simpa using h3
        rw [hm] at hgt
        exact absurd hgt (by decide)
  · unfold postHandlerDeimos
    split_ifs with h1 h2 h3
    · rfl
    · rfl
    · rfl
    · exfalso
      rcases h with hp | hpl | hm
      · rw [hp] at h1
        exact h1 (by decide)
      · rw [hpl] at h2
        exact h2 (by decide)
      · rw [hm] at h3
        exact h3 (by decide)

/-- Witness for C6: the concrete request `port="0"` (with otherwise
valid fields) is rejected by both handlers and leaves the registry
unchanged. -/
theorem c6_validation_rejects_bad_requests_witness :
    postHandler 100 "1.2.3.4"
        { port := some "0", name := "Server A", map := "map1",
          players := some "", maxplayers := some "16" } [] =
      (Response.badRequest, []) ∧
    postHandlerDeimos 100 "1.2.3.4"
        { port := some "0", name := "Server A", map := "map1",
          players := some "", maxplayers := some "16" } = none ∧
    Response.badRequest.status = 400 ∧
    Response.badRequest.payload = Json.obj [("error", Json.str "Bad request")] :=
  c6_validation_rejects_bad_requests 100 "1.2.3.4"
    { port := some "0", name := "Server A", map := "map1",
      players := some "", maxplayers := some "16" } [] (Or.inl rfl)

/-- Claim C10: with file-backed caching, a missing cache file makes
`getCacheAge` return exactly the configured expiration, and since a
refresh is triggered only when the age is strictly greater than the
expiration, a read in the missing-file state never triggers a refresh. -/
theorem c10_missing_cache_file_never_refreshes :
    ∀ (expiration now : Int),
      getCacheAgeFile expiration now none = expiration ∧
      refreshTriggered expiration (getCacheAgeFile expiration now none) = false := by
  intro e n
  refine ⟨rfl, ?_⟩
  simp [refreshTriggered, getCacheAgeFile]

/-- Witness for C10 at expiration 60, now 12345. -/
theorem c10_missing_cache_file_never_refreshes_witness :
    getCacheAgeFile 60 12345 none = 60 ∧
    refreshTriggered 60 (getCacheAgeFile 60 12345 none) = false :=
  c10_missing_cache_file_never_refreshes 60 12345

/-- Claim C1, counterexample to the empty-string case: registering and
then heartbeating the same identity with `players:""` leaves a single
entry (no duplicate), but its players sequence is `[""]` — one element,
the empty string (`"".split(',')` is `[""]` in JavaScript) — not the
empty sequence the claim requires. -/
theorem c1_empty_players_counterexample :
    run [Event.post 100 "1.2.3.4"
           { port := some "27015", name := "Server A", map := "map1",
             players := some "alice, bob", maxplayers := some "16" },
         Event.post 101 "1.2.3.4"
           { port := some "27015", name := "Server A", map := "map1",
             players := some "", maxplayers := some "16" }] =
      [("1.2.3.4:27015",
         { ip := "1.2.3.4", port := 27015, name := "Server A", map := "map1",
             players := [""], maxplayers := 16, lastRefresh := 101 })] ∧
    ¬ ([""] = ([] : List String)) :=
  ⟨by decide, by decide⟩

/-- Claim C1 (amended): for every accepted `POST /`, the stored entry's
players sequence is the comma-split of the request's `players` string
with each element trimmed (for `players:""` this is `[""]`, a single
empty string, not the empty sequence), and the upsert updates an
existing entry for the same address/port in place instead of creating a
duplicate: the key sequence is unchanged when the key exists and gains
exactly the new key otherwise. -/
theorem c1_players_split_and_update_in_place
    (now : Int) (ip : String) (body : Body) (servers : List (String × Server))
    (h : (postHandler now ip body servers).1 = Response.ok) :
    ∃ ps, body.players = some ps ∧
      lookupServer (serverKey ip ((jsParseIntField body.port).getD 0))
          (postHandler now ip body servers).2 = some (mkServer now ip body) ∧
      (mkServer now ip body).players = splitPlayers ps ∧
      (postHandler now ip body servers).2.map Prod.fst =
        (if servers.any
              (fun p => decide (p.1 = serverKey ip ((jsParseIntField body.port).getD 0))) then
           servers.map Prod.fst
         else
           servers.map Prod.fst ++ [serverKey ip ((jsParseIntField body.port).getD 0)]) := by
  obtain ⟨hp, hpl, hm, heq⟩ := postHandler_ok_eq h
  cases hps : body.players with
  | none => rw [hps] at hpl; simp at hpl
  | some ps =>
    refine ⟨ps, rfl, ?_, ?_, ?_⟩
    · rw [heq]
      exact lookupServer_upsert _ _ _
    · simp [mkServer, hps]
    · rw [heq]
      exact keys_upsert _ _ _

/-- Witness for C1: a registration followed by a heartbeat with
`players:""` from the same address and port; the amended theorem applies
to the second request, whose state already contains the key. -/
theorem c1_players_split_and_update_in_place_witness :
    ∃ ps, some "" = some ps ∧
      lookupServer (serverKey "1.2.3.4" ((jsParseIntField (some "27015")).getD 0))
          (postHandler 101 "1.2.3.4"
            { port := some "27015", name := "Server A", map := "map1",
              players := some "", maxplayers := some "16" }
            (run [Event.post 100 "1.2.3.4"
              { port := some "27015", name := "Server A", map := "map1",
                players := some "alice, bob", maxplayers := some "16" }])).2 =
        some (mkServer 101 "1.2.3.4"
          { port := some "27015", name := "Server A", map := "map1",
            players := some "", maxplayers := some "16" }) ∧
      (mkServer 101 "1.2.3.4"
          { port := some "27015", name := "Server A", map := "map1",
            players := some "", maxplayers := some "16" }).players = splitPlayers ps ∧
      (postHandler 101 "1.2.3.4"
          { port := some "27015", name := "Server A", map := "map1",
            players := some "", maxplayers := some "16" }
          (run [Event.post 100 "1.2.3.4"
            { port := some "27015", name := "Server A", map := "map1",
              players := some "alice, bob", maxplayers := some "16" }])).2.map Prod.fst =
        (if (run [Event.post 100 "1.2.3.4"
                { port := some "27015", name := "Server A", map := "map1",
                  players := some "alice, bob", maxplayers := some "16" }]).any
              (fun p => decide
                (p.1 = serverKey "1.2.3.4" ((jsParseIntField (some "27015")).getD 0))) then
           (run [Event.post 100 "1.2.3.4"
               { port := some "27015", name := "Server A", map := "map1",
                 players := some "alice, bob", maxplayers := some "16" }]).map Prod.fst
         else
           (run [Event.post 100 "1.2.3.4"
               { port := some "27015", name := "Server A", map := "map1",
                 players := some "alice, bob", maxplayers := some "16" }]).map Prod.fst ++
             [serverKey "1.2.3.4" ((jsParseIntField (some "27015")).getD 0)]) :=
  c1_players_split_and_update_in_place 101 "1.2.3.4"
    { port := some "27015", name := "Server A", map := "map1",
      players := some "", maxplayers := some "16" }
    (run [Event.post 100 "1.2.3.4"
      { port := some "27015", name := "Server A", map := "map1",
        players := some "alice, bob", maxplayers := some "16" }])
    (by decide)

/-- Claim C5, counterexample to the array shape: after one accepted
registration, the in-memory variant's `GET /` body is the serialization
of the servers object — a JSON object keyed by `ip:port` — not a JSON
array (while the status is indeed 200). -/
theorem c5_body_not_array_counterexample :
    (getHandler (run [Event.post 100 "1.2.3.4"
        { port := some "27015", name := "Server A", map := "map1",
          players := some "alice, bob", maxplayers := some "16" }])).1 = 200 ∧
    Json.isArr (getHandler (run [Event.post 100 "1.2.3.4"
        { port := some "27015", name := "Server A", map := "map1",
          players := some "alice, bob", maxplayers := some "16" }])).2 = false ∧
    (getHandler (run [Event.post 100 "1.2.3.4"
        { port := some "27015", name := "Server A", map := "map1",
          players := some "alice, bob", maxplayers := some "16" }])).2 =
      Json.obj [("1.2.3.4:27015", serverToJson
        { ip := "1.2.3.4", port := 27015, name := "Server A", map := "map1",
            players := ["alice", "bob"], maxplayers := 16, lastRefresh := 100 })] :=
  ⟨rfl, rfl, rfl⟩

/-- Claim C5 (amended): every `GET /` returns status 200 and the
registry serialized as a JSON object keyed by `ip:port`, whose member
for each stored entry carries exactly the fields ip, port, name, map,
players (a JSON array), maxplayers and lastRefresh. -/
theorem c5_get_serves_registry_object
    (servers : List (String × Server)) (p : String × Server) (hp : p ∈ servers) :
    (getHandler servers).1 = 200 ∧
    (getHandler servers).2 = Json.obj (servers.map (fun q => (q.1, serverToJson q.2))) ∧
    (p.1, serverToJson p.2) ∈ (getHandler servers).2.objFields ∧
    Json.jkeys (serverToJson p.2) =
      ["ip", "port", "name", "map", "players", "maxplayers", "lastRefresh"] ∧
    (serverToJson p.2).jfield "players" = some (Json.arr (p.2.players.map Json.str)) := by
  refine ⟨rfl, rfl, ?_, rfl, rfl⟩
  exact List.mem_map.mpr ⟨p, hp, rfl⟩

/-- Witness for C5: the registry holding one concrete entry. -/
theorem c5_get_serves_registry_object_witness :
    (getHandler [("1.2.3.4:27015",
        { ip := "1.2.3.4", port := 27015, name := "Server A", map := "map1",
            players := ["alice", "bob"], maxplayers := 16, lastRefresh := 100 })]).1 = 200 ∧
    (getHandler [("1.2.3.4:27015",
        { ip := "1.2.3.4", port := 27015, name := "Server A", map := "map1",
            players := ["alice", "bob"], maxplayers := 16, lastRefresh := 100 })]).2 =
      Json.obj ([("1.2.3.4:27015",
        { ip := "1.2.3.4", port := 27015, name := "Server A", map := "map1",
            players := ["alice", "bob"], maxplayers := 16, lastRefresh := 100 })].map
          (fun q => (q.1, serverToJson q.2))) ∧
    ("1.2.3.4:27015", serverToJson
        { ip := "1.2.3.4", port := 27015, name := "Server A", map := "map1",
            players := ["alice", "bob"], maxplayers := 16, lastRefresh := 100 }) ∈
      (getHandler [("1.2.3.4:27015",
        { ip := "1.2.3.4", port := 27015, name := "Server A", map := "map1",
            players := ["alice", "bob"], maxplayers := 16, lastRefresh := 100 })]).2.objFields ∧
    Json.jkeys (serverToJson
        { ip := "1.2.3.4", port := 27015, name := "Server A", map := "map1",
            players := ["alice", "bob"], maxplayers := 16, lastRefresh := 100 }) =
      ["ip", "port", "name", "map", "players", "maxplayers", "lastRefresh"] ∧
    (serverToJson
        { ip := "1.2.3.4", port := 27015, name := "Server A", map := "map1",
            players := ["alice", "bob"], maxplayers := 16, lastRefresh := 100 }).jfield
        "players" =
      some (Json.arr (["alice", "bob"].map Json.str)) :=
  c5_get_serves_registry_object
    [("1.2.3.4:27015",
      { ip := "1.2.3.4", port := 27015, name := "Server A", map := "map1",
          players := ["alice", "bob"], maxplayers := 16, lastRefresh := 100 })]
    ("1.2.3.4:27015",
      { ip := "1.2.3.4", port := 27015, name := "Server A", map := "map1",
          players := ["alice", "bob"], maxplayers := 16, lastRefresh := 100 })
    (List.mem_singleton.mpr rfl)

/-- Claim C7, counterexample on the MySQL-backed variant: its guards
reject only `port === 0` (and undefined `players`, `maxplayers === 0`),
so a `POST /` with `port="-5"` — parsed to the non-positive integer
`-5` — is accepted and upserted rather than rejected. -/
theorem c7_negative_port_accepted_counterexample :
    postHandlerDeimos 100 "1.2.3.4"
        { port := some "-5", name := "Server A", map := "map1",
          players := some "alice", maxplayers := some "16" } =
      some { ip := "1.2.3.4", port := some (-5), name := "Server A", map := "map1",
               players := ["alice"], maxplayers := some 16, lastRefresh := 100 } ∧
    ((-5 : Int) ≤ 0) :=
  ⟨by decide, by decide⟩

/-- Claim C7 (amended): in the in-memory variant, whose guards demand
`port > 0` and `maxplayers > 0`, every entry ever present in the
registry — over any sequence of registrations, heartbeats and sweeps —
has a strictly positive port and a strictly positive maxplayers; the
MySQL-backed variant rejects only the value zero, so negative values
pass its validation there. -/
theorem c7_registry_entries_positive
    (evs : List Event) (p : String × Server) (hp : p ∈ run evs) :
    0 < p.2.port ∧ 0 < p.2.maxplayers :=
  ((regInv_run evs).2 p hp).2

/-- Witness for C7: after one concrete registration the stored entry has
port 27015 > 0 and maxplayers 16 > 0. -/
theorem c7_registry_entries_positive_witness :
    0 < (("1.2.3.4:27015",
        ({ ip := "1.2.3.4", port := 27015, name := "Server A", map := "map1",
             players := ["alice", "bob"], maxplayers := 16, lastRefresh := 100 } : Server)) :
        String × Server).2.port ∧
    0 < (("1.2.3.4:27015",
        ({ ip := "1.2.3.4", port := 27015, name := "Server A", map := "map1",
             players := ["alice", "bob"], maxplayers := 16, lastRefresh := 100 } : Server)) :
        String × Server).2.maxplayers :=
  c7_registry_entries_positive
    [Event.post 100 "1.2.3.4"
      { port := some "27015", name := "Server A", map := "map1",
        players := some "alice, bob", maxplayers := some "16" }]
    ("1.2.3.4:27015",
      { ip := "1.2.3.4", port := 27015, name := "Server A", map := "map1",
          players := ["alice", "bob"], maxplayers := 16, lastRefresh := 100 })
    (by decide)

/-- Claim C8: at every reachable registry state there is at most one
entry per identity (address, port): any two stored entries that agree on
ip and port are the same entry, over any sequence of registrations,
heartbeats and sweeps starting from the empty registry. -/
theorem c8_at_most_one_entry_per_identity
    (evs : List Event) (p q : String × Server)
    (hp : p ∈ run evs) (hq : q ∈ run evs)
    (hip : p.2.ip = q.2.ip) (hport : p.2.port = q.2.port) : p = q := by
  obtain ⟨hnd, hinv⟩ := regInv_run evs
  have hkey : p.1 = q.1 := by
    rw [(hinv p hp).1, (hinv q hq).1, hip, hport]
  exact List.inj_on_of_nodup_map hnd hp hq hkey

/-- Witness for C8: after a registration and a heartbeat for the same
identity the registry has one entry; two member references agreeing on
ip and port are equal. -/
theorem c8_at_most_one_entry_per_identity_witness :
    (("1.2.3.4:27015",
        ({ ip := "1.2.3.4", port := 27015, name := "Server A", map := "map1",
             players := [""], maxplayers := 16, lastRefresh := 101 } : Server)) :
        String × Server) =
      ("1.2.3.4:27015",
        ({ ip := "1.2.3.4", port := 27015, name := "Server A", map := "map1",
             players := [""], maxplayers := 16, lastRefresh := 101 } : Server)) :=
  c8_at_most_one_entry_per_identity
    [Event.post 100 "1.2.3.4"
      { port := some "27015", name := "Server A", map := "map1",
        players := some "alice, bob", maxplayers := some "16" },
     Event.post 101 "1.2.3.4"
      { port := some "27015", name := "Server A", map := "map1",
        players := some "", maxplayers := some "16" }]
    ("1.2.3.4:27015",
      { ip := "1.2.3.4", port := 27015, name := "Server A", map := "map1",
          players := [""], maxplayers := 16, lastRefresh := 101 })
    ("1.2.3.4:27015",
      { ip := "1.2.3.4", port := 27015, name := "Server A", map := "map1",
          players := [""], maxplayers := 16, lastRefresh := 101 })
    (by decide) (by decide) rfl rfl

/-- Claim C9: across two successive accepted heartbeats for the same
identity with non-decreasing request times, the entry's `lastSeen`
(`lastRefresh`) after each heartbeat equals that heartbeat's "now" and
never moves backward, and after the second heartbeat the name, map,
players and maxplayers all equal the values carried by the most recent
heartbeat (last-write-wins). -/
theorem c9_lastSeen_monotone_last_write_wins
    (t1 t2 : Int) (ip : String) (b1 b2 : Body) (s0 : List (String × Server))
    (ht : t1 ≤ t2)
    (hports : jsParseIntField b1.port = jsParseIntField b2.port)
    (h1 : (postHandler t1 ip b1 s0).1 = Response.ok)
    (h2 : (postHandler t2 ip b2 (postHandler t1 ip b1 s0).2).1 = Response.ok) :
    ∃ e1 e2 : Server,
      lookupServer (serverKey ip ((jsParseIntField b2.port).getD 0))
          (postHandler t1 ip b1 s0).2 = some e1 ∧
      lookupServer (serverKey ip ((jsParseIntField b2.port).getD 0))
          (postHandler t2 ip b2 (postHandler t1 ip b1 s0).2).2 = some e2 ∧
      e1.lastRefresh = t1 ∧ e2.lastRefresh = t2 ∧
      e1.lastRefresh ≤ e2.lastRefresh ∧
      e2.name = b2.name ∧ e2.map = b2.map ∧
      (∃ ps, b2.players = some ps ∧ e2.players = splitPlayers ps) ∧
      jsParseIntField b2.maxplayers = some e2.maxplayers := by
  obtain ⟨hp1, hpl1, hm1, heq1⟩ := postHandler_ok_eq h1
  obtain ⟨hp2, hpl2, hm2, heq2⟩ := postHandler_ok_eq h2
  refine ⟨mkServer t1 ip b1, mkServer t2 ip b2, ?_, ?_, rfl, rfl, ht, rfl, rfl, ?_, ?_⟩
  · rw [heq1, hports]
    exact lookupServer_upsert _ _ _
  · rw [heq2]
    exact lookupServer_upsert _ _ _
  · cases hps : b2.players with
    | none => rw [hps] at hpl2; simp at hpl2
    | some ps =>
      exact ⟨ps, rfl, by simp [mkServer, hps]⟩
  · exact some_getD_of_jsGtZero hm2

/-- Witness for C9: a registration at time 100 followed by a heartbeat
at time 101 for the same identity with different name, map, players and
maxplayers. -/
theorem c9_lastSeen_monotone_last_write_wins_witness :
    ∃ e1 e2 : Server,
      lookupServer (serverKey "1.2.3.4" ((jsParseIntField (some "27015")).getD 0))
          (postHandler 100 "1.2.3.4"
            { port := some "27015", name := "Server A", map := "map1",
              players := some "alice, bob", maxplayers := some "16" } []).2 = some e1 ∧
      lookupServer (serverKey "1.2.3.4" ((jsParseIntField (some "27015")).getD 0))
          (postHandler 101 "1.2.3.4"
            { port := some "27015", name := "Server B", map := "map2",
              players := some "carol", maxplayers := some "32" }
            (postHandler 100 "1.2.3.4"
              { port := some "27015", name := "Server A", map := "map1",
                players := some "alice, bob", maxplayers := some "16" } []).2).2 = some e2 ∧
      e1.lastRefresh = 100 ∧ e2.lastRefresh = 101 ∧
      e1.lastRefresh ≤ e2.lastRefresh ∧
      e2.name = "Server B" ∧ e2.map = "map2" ∧
      (∃ ps, some "carol" = some ps ∧ e2.players = splitPlayers ps) ∧
      jsParseIntField (some "32") = some e2.maxplayers :=
  c9_lastSeen_monotone_last_write_wins 100 101 "1.2.3.4"
    { port := some "27015", name := "Server A", map := "map1",
      players := some "alice, bob", maxplayers := some "16" }
    { port := some "27015", name := "Server B", map := "map2",
      players := some "carol", maxplayers := some "32" }
    [] (by decide) (by decide) (by decide) (by decide)

end DeimosMaster
